import Mathlib

/-!
Verification of the `Try` error-handling abstraction from `icssc/stdlib`
(`src/try.ts`): a shallow embedding of the `Try`/`Success`/`Failure` class
hierarchy and proofs of the specified properties.

Embedding conventions:
* JavaScript runtime values are modelled by the inductive type `JSVal`,
  which covers the value shapes the library's semantics distinguishes:
  `null`, `undefined`, booleans, (integer) numbers, strings, `Error`
  objects (identified by their message), and `Try` instances stored as
  values (needed for nested `Try<Try<T>>`).
* A JavaScript computation that may `throw` is modelled as a value of
  `Except JSVal α`: `Except.ok v` is a normal return of `v`, and
  `Except.error e` is `throw e` with payload `e`.
* Caller-supplied functions that the source invokes and that may throw
  are modelled as `JSVal → Except JSVal β`.
* Methods of the source that can themselves throw (`get`, `flat`,
  `filter`, `reduce`) return `Except JSVal _`; methods whose bodies catch
  every exception (`flatMap`, `collect`, `recover`) return `Try` directly.
* `this`-returning branches of the source become branches returning the
  matched value unchanged; structural equality stands in for JavaScript
  reference identity, which a pure embedding cannot observe.
-/

mutual

/-- A JavaScript runtime value, as far as the `Try` library's semantics
inspects values: nullish sentinels, primitives, `Error` objects carrying a
message, and `Try` instances themselves (so that nesting is expressible). -/
inductive JSVal : Type where
  | null : JSVal
  | undef : JSVal
  | bool : Bool → JSVal
  | num : Int → JSVal
  | str : String → JSVal
  | err : String → JSVal
  | wrapped : Try → JSVal

/-- The `Try` sum type of the source: `Success` holds a produced value,
`Failure` holds the thrown payload verbatim (any `JSVal`). -/
inductive Try : Type where
  | Success : JSVal → Try
  | Failure : JSVal → Try

end

namespace JSVal

/-- JavaScript truthiness, as applied by the source's `filter` to the
predicate's result (`f(this.value) ? this : ...`): `null`, `undefined`,
`false`, `0`, and `""` are falsy; objects (including `Error` and `Try`
instances) are truthy. -/
def truthy : JSVal → Bool
  | .null => false
  | .undef => false
  | .bool b => b
  | .num n => n != 0
  | .str s => s != ""
  | .err _ => true
  | .wrapped _ => true

/-- The source's non-strict null check `x != null` (loose inequality),
which is `false` exactly for `null` and `undefined` and `true` for every
other value, falsy ones included. -/
def neNull : JSVal → Bool
  | .null => false
  | .undef => false
  | _ => true

/-- JavaScript string coercion as performed by the template literals
`` `Function not defined for ${v}` `` and
`` `Predicate does not hold for ${v}` `` in the source. -/
def jsToString : JSVal → String
  | .null => "null"
  | .undef => "undefined"
  | .bool b => cond b "true" "false"
  | .num n => toString n
  | .str s => s
  | .err m => "Error: " ++ m
  | .wrapped _ => "[object Object]"

end JSVal

namespace Try

/-- `Try.from(x)`: wraps a value directly in a `Success`. (The source name
`from` is a reserved word in Lean; the spec calls this `fromValue`.) -/
def fromValue (x : JSVal) : Try := .Success x

/-- `Try.of(f)`: runs `f`, returning `Success` of its result, or `Failure`
of the thrown payload if it throws. -/
def of (f : Unit → Except JSVal JSVal) : Try :=
  match f () with
  | .ok x => .Success x
  | .error e => .Failure e

/-- `get()`: on `Success`, returns the stored value; on `Failure`, throws
the stored payload. -/
def get : Try → Except JSVal JSVal
  | .Success v => .ok v
  | .Failure e => .error e

/-- `flat()`: delegates to `get()` verbatim (`return this.get();`). The
source restricts the receiver to `Try<Try<U>>` at the type level only;
there is no runtime check, so the embedding is over any receiver. -/
def flat (t : Try) : Except JSVal JSVal := t.get

/-- `isSuccess()`: `true` on `Success`, `false` on `Failure`. -/
def isSuccess : Try → Bool
  | .Success _ => true
  | .Failure _ => false

/-- `isFailure()`: `true` on `Failure`, `false` on `Success`. -/
def isFailure : Try → Bool
  | .Success _ => false
  | .Failure _ => true

/-- `flatMap(f)`: on `Success`, `try { return f(this.value) } catch (e)
{ return new Failure(e) }`; on `Failure`, returns `this`. -/
def flatMap (t : Try) (f : JSVal → Except JSVal Try) : Try :=
  match t with
  | .Success v =>
      match f v with
      | .ok r => r
      | .error e => .Failure e
  | .Failure e => .Failure e

/-- `filter(f)`: on `Success`, evaluates the predicate with no catch (a
thrown exception propagates to the caller) and keeps `this` when the
result is truthy, otherwise builds a new `Failure` carrying
`Error("Predicate does not hold for " + value)`; on `Failure`, returns
`this` without touching the predicate. -/
def filter (t : Try) (f : JSVal → Except JSVal JSVal) : Except JSVal Try :=
  match t with
  | .Success v => do
      let r ← f v
      pure (if r.truthy then Try.Success v
            else .Failure (.err ("Predicate does not hold for " ++ v.jsToString)))
  | .Failure _ => pure t

/-- `collect(f)`: on `Success`, runs `Try.of` over "apply `f`; if the
result passes the non-strict null check return it, else throw
`Error("Function not defined for " + value)`"; on `Failure`, returns
`this`. -/
def collect (t : Try) (f : JSVal → Except JSVal JSVal) : Try :=
  match t with
  | .Success v =>
      Try.of (fun _ => do
        let x ← f v
        if x.neNull then pure x
        else Except.error (.err ("Function not defined for " ++ v.jsToString)))
  | .Failure e => .Failure e

/-- `recover(f)`: on `Success`, returns `this`; on `Failure`, runs `Try.of`
over "apply `f` to the stored payload; if the result passes the non-strict
null check return it, else throw `Error("Function not defined for " +
payload)`". -/
def recover (t : Try) (f : JSVal → Except JSVal JSVal) : Try :=
  match t with
  | .Success v => .Success v
  | .Failure e =>
      Try.of (fun _ => do
        let x ← f e
        if x.neNull then pure x
        else Except.error (.err ("Function not defined for " ++ e.jsToString)))

/-- `failed()`: on `Success`, a new `Failure` wrapping
`Error("Cannot call failed() on instance of Success")`; on `Failure`, a
new `Success` wrapping the stored payload. -/
def failed : Try → Try
  | .Success _ => .Failure (.err "Cannot call failed() on instance of Success")
  | .Failure e => .Success e

/-- `reduce(f, g)`: on `Success`, returns `f(value)` with no catch; on
`Failure`, returns `g(payload)` with no catch. A thrown exception from
the invoked function propagates to the caller. -/
def reduce (t : Try) (f g : JSVal → Except JSVal JSVal) : Except JSVal JSVal :=
  match t with
  | .Success v => f v
  | .Failure e => g e

end Try

/-! ## Claim theorems -/

/-- C1: `flatMap` satisfies the three monad laws: for every value `x` and
function `f` returning a `Try`, `fromValue(x).flatMap(f) = f(x)` (left
identity); for every `Try` `m`, `m.flatMap(fromValue) = m` (right
identity); and `m.flatMap(f).flatMap(g) = m.flatMap(x => f(x).flatMap(g))`
(associativity). Functions returning a `Try` are embedded as
`fun y => Except.ok (f y)` (they return normally, never throw). -/
theorem flatMap_monad_laws (x : JSVal) (m : Try) (f g : JSVal → Try) :
    (Try.fromValue x).flatMap (fun y => Except.ok (f y)) = f x ∧
    m.flatMap (fun y => Except.ok (Try.fromValue y)) = m ∧
    (m.flatMap (fun y => Except.ok (f y))).flatMap (fun y => Except.ok (g y)) =
      m.flatMap (fun y => Except.ok ((f y).flatMap (fun z => Except.ok (g z)))) := by
  refine ⟨rfl, ?_, ?_⟩ <;> cases m <;> rfl

/-- C2 counterexample: `flat()` on a `Success` whose stored value is itself
a `Failure` does NOT raise: it returns the inner `Failure` directly as a
normal value (`Except.ok`), because `Success.get()` simply returns the
stored value without inspecting it. -/
theorem flat_success_of_failure_counterexample :
    Try.flat (.Success (.wrapped (.Failure (.str "boom")))) =
      Except.ok (.wrapped (.Failure (.str "boom"))) := rfl

/-- C2 (amended): when `flat()` is called on a `Try` whose outer instance
is a `Success` and whose inner value is itself a `Failure`, it returns the
inner `Failure` directly as a normal value; the unwrap path
(`Success.get()`) returns the stored value and never raises. -/
theorem flat_success_of_failure_returns_inner (e : JSVal) :
    Try.flat (.Success (.wrapped (.Failure e))) =
      Except.ok (.wrapped (.Failure e)) := rfl

/-- C3: `Success(x).filter(p)` (for a predicate `p` that returns normally)
is the same `Success(x)` when `p x` is truthy, and otherwise a new
`Failure` carrying the constructed "Predicate does not hold for value"
error; `Failure(e).filter(q)` returns the same `Failure(e)` for an
arbitrary (even throwing) `q`, never evaluating it. -/
theorem filter_spec (x e : JSVal) (p : JSVal → JSVal)
    (q : JSVal → Except JSVal JSVal) :
    (Try.Success x).filter (fun y => Except.ok (p y)) =
      Except.ok (if (p x).truthy then Try.Success x
        else .Failure (.err ("Predicate does not hold for " ++ x.jsToString))) ∧
    (Try.Failure e).filter q = Except.ok (Try.Failure e) :=
  ⟨rfl, rfl⟩

/-- C4: `collect` on a `Success` returns `Success(f(value))` when `f`
returns a present (non-nullish) result, a `Failure` carrying the
constructed "Function not defined for value" error when `f` returns a
nullish result, and a `Failure` with the raised payload when `f` throws;
on a `Failure` it returns the same instance without invoking `f`. -/
theorem collect_spec (v e p ex : JSVal) (f g : JSVal → Except JSVal JSVal) :
    (f v = Except.ok p → p.neNull = true →
      (Try.Success v).collect f = .Success p) ∧
    (f v = Except.ok p → p.neNull = false →
      (Try.Success v).collect f =
        .Failure (.err ("Function not defined for " ++ v.jsToString))) ∧
    (f v = Except.error ex → (Try.Success v).collect f = .Failure ex) ∧
    (Try.Failure e).collect g = .Failure e := by
  refine ⟨?_, ?_, ?_, rfl⟩
  · intro hf hp
    simp [Try.collect, Try.of, bind, Except.bind, pure, Except.pure, hf, hp]
  · intro hf hp
    simp [Try.collect, Try.of, bind, Except.bind, pure, Except.pure, hf, hp]
  · intro hf
    simp [Try.collect, Try.of, bind, Except.bind, pure, Except.pure, hf]

/-- Witness for C4, applying `collect_spec` at concrete inputs. -/
theorem collect_spec_witness :
    (Try.Success (.str "a")).collect (fun _ => Except.ok (.num 7)) =
      .Success (.num 7) ∧
    (Try.Success (.str "a")).collect (fun _ => Except.ok .null) =
      .Failure (.err "Function not defined for a") ∧
    (Try.Success (.str "a")).collect (fun _ => Except.error (.str "boom")) =
      .Failure (.str "boom") ∧
    (Try.Failure (.str "e")).collect (fun _ => Except.ok (.num 1)) =
      .Failure (.str "e") :=
  ⟨(collect_spec (.str "a") (.str "e") (.num 7) (.str "boom")
      (fun _ => Except.ok (.num 7)) (fun _ => Except.ok (.num 1))).1 rfl rfl,
   (collect_spec (.str "a") (.str "e") .null (.str "boom")
      (fun _ => Except.ok .null) (fun _ => Except.ok (.num 1))).2.1 rfl rfl,
   (collect_spec (.str "a") (.str "e") (.num 7) (.str "boom")
      (fun _ => Except.error (.str "boom")) (fun _ => Except.ok (.num 1))).2.2.1 rfl,
   (collect_spec (.str "a") (.str "e") (.num 7) (.str "boom")
      (fun _ => Except.ok (.num 7)) (fun _ => Except.ok (.num 1))).2.2.2⟩

/-- C5: `get()` on `Success(v)` returns exactly `v`; `get()` on
`Failure(e)` throws exactly `e`; and `get()` throws (i.e. produces an
`Except.error`) if and only if the instance is a `Failure`. -/
theorem get_spec (v e : JSVal) (t : Try) :
    (Try.Success v).get = Except.ok v ∧
    (Try.Failure e).get = Except.error e ∧
    ((∃ x, t.get = Except.error x) ↔ t.isFailure = true) := by
  refine ⟨rfl, rfl, ?_⟩
  cases t <;> simp [Try.get, Try.isFailure]

/-- C6: `failed()` on a `Success` produces a new `Failure` wrapping the
constructed error whose message in the source is
"Cannot call failed() on instance of Success" (the spec describes it as a
"cannot invert a success" failure); `failed()` on `Failure(e)` produces a
new `Success` whose value is exactly the original payload `e`. -/
theorem failed_spec (x e : JSVal) :
    (Try.Success x).failed =
      .Failure (.err "Cannot call failed() on instance of Success") ∧
    (Try.Failure e).failed = .Success e :=
  ⟨rfl, rfl⟩

/-- C7: for every instance, `isSuccess()` and `isFailure()` are logical
complements, and `fromValue(v)` satisfies `isSuccess() = true` and
`isFailure() = false`. -/
theorem isSuccess_isFailure_complement (t : Try) (v : JSVal) :
    t.isSuccess = !t.isFailure ∧
    (Try.fromValue v).isSuccess = true ∧
    (Try.fromValue v).isFailure = false := by
  refine ⟨?_, rfl, rfl⟩
  cases t <;> rfl

/-- C8: `flat()` on a `Failure` does not return that `Failure` as a value:
because `flat` delegates to `get()`, it raises the stored payload
(`Except.error e`, the embedding of `throw e`). -/
theorem flat_on_failure_raises (e : JSVal) :
    Try.flat (.Failure e) = Except.error e := rfl

/-- C9: `reduce` applies `f` on `Success` and `g` on `Failure`, its result
is independent of the uninvoked argument, and it performs no catching: a
thrown exception from the invoked function propagates to the caller
(contrast with `flatMap`, which converts the same throw into a
`Failure`). -/
theorem reduce_spec (v e ex : JSVal)
    (f g fAlt gAlt : JSVal → Except JSVal JSVal) :
    (Try.Success v).reduce f g = f v ∧
    (Try.Failure e).reduce f g = g e ∧
    (Try.Success v).reduce f g = (Try.Success v).reduce f gAlt ∧
    (Try.Failure e).reduce f g = (Try.Failure e).reduce fAlt g ∧
    (Try.Success v).reduce (fun _ => Except.error ex) g = Except.error ex ∧
    (Try.Success v).flatMap (fun _ => Except.error ex) = .Failure ex :=
  ⟨rfl, rfl, rfl, rfl, rfl, rfl⟩

/-- C10: in `collect` and `recover` an "absent" result means exactly a
nullish value (non-strict `!= null` check), so falsy but non-null results
such as `0`, `false`, `""` count as present and yield a `Success`; whereas
`filter` tests truthiness, so those same values make `filter` produce a
`Failure`. -/
theorem absent_means_nullish_not_falsy (v e w : JSVal) :
    (Try.Success v).collect (fun _ => Except.ok w) =
      (if w.neNull then .Success w
       else .Failure (.err ("Function not defined for " ++ v.jsToString))) ∧
    (Try.Failure e).recover (fun _ => Except.ok w) =
      (if w.neNull then .Success w
       else .Failure (.err ("Function not defined for " ++ e.jsToString))) ∧
    (Try.Success v).filter (fun _ => Except.ok w) =
      Except.ok (if w.truthy then Try.Success v
        else .Failure (.err ("Predicate does not hold for " ++ v.jsToString))) ∧
    JSVal.neNull (.num 0) = true ∧
    JSVal.neNull (.bool false) = true ∧
    JSVal.neNull (.str "") = true ∧
    JSVal.neNull .null = false ∧
    JSVal.neNull .undef = false ∧
    JSVal.truthy (.num 0) = false ∧
    JSVal.truthy (.bool false) = false ∧
    JSVal.truthy (.str "") = false := by
  refine ⟨?_, ?_, rfl, by decide, by decide, by decide, by decide, by decide,
    by decide, by decide, by decide⟩
  · cases hw : w.neNull <;> simp [Try.collect, Try.of, bind, Except.bind, pure, Except.pure, hw]
  · cases hw : w.neNull <;> simp [Try.recover, Try.of, bind, Except.bind, pure, Except.pure, hw]
